import Mathlib

/-!
Verification of the binaural spatial-audio engine of the meet-in-space
video-conferencing client.

The engine lives in `react/features/base/media/components/web/AudioTrack.js`
(per-participant Web-Audio graph: media-stream source node, HRTF panner node,
gain node) together with the global toggle in
`react/features/video-layout/actions.js` (`toggleSpatialAudio`).

Shallow embedding conventions:

* JavaScript float64 numbers are idealized as real numbers `ℝ` where the code
  does trigonometry (`calcLocation`, panner coordinates) and as `JSNum`
  (NaN or an exact rational) where the code only copies/compares values
  (gain, volume props).
* `Number.prototype.toFixed(2)` is modelled by `toFixed2 : ℝ → ℝ`, the exact
  decimal rounding to hundredths that ECMA-262 specifies (round half away
  from zero, implemented via the sign split the standard uses); the string it
  produces is identified with its numeric value, which is what the callers
  use (`xPos * this._pannerNode.scale` coerces the string back to a number).
* The Web-Audio connection state of one participant graph is a `Wiring`
  record of the four edges the code ever creates
  (source→panner, source→gain, panner→gain, gain→destination);
  `node.disconnect()` drops every outgoing edge of that node, and a repeated
  `connect` between the same two nodes is idempotent, as in the Web Audio
  specification.
* Thrown-and-caught JavaScript exceptions are modelled with `Except JSError`.
-/

namespace MeetInSpace

/-- A JavaScript number as the volume logic sees it: NaN or a finite value
(idealized as an exact rational). -/
inductive JSNum where
  | nan : JSNum
  | num : ℚ → JSNum
deriving DecidableEq

/-- The JavaScript runtime exceptions arising in the embedded code paths. -/
inductive JSError where
  | typeError : JSError
  | referenceError : JSError
deriving DecidableEq

/-- The set of Web-Audio connections of one participant graph.  Only these
four edges are ever created by `AudioTrack.js`. -/
structure Wiring where
  sourceToPanner : Bool
  sourceToGain : Bool
  pannerToGain : Bool
  gainToDest : Bool
deriving DecidableEq

/-- An entirely unconnected node set (state right after `createGain` /
`createPanner` / `createMediaStreamSource`). -/
def freshWiring : Wiring :=
  { sourceToPanner := false, sourceToGain := false, pannerToGain := false, gainToDest := false }

/-- Effect of `this._source.disconnect()`: every outgoing edge of the source
node is removed. -/
def Wiring.disconnectSource (w : Wiring) : Wiring :=
  { w with sourceToPanner := false, sourceToGain := false }

/-- Effect of `this._pannerNode.disconnect()`. -/
def Wiring.disconnectPanner (w : Wiring) : Wiring :=
  { w with pannerToGain := false }

/-- Effect of `this._source.connect(this._pannerNode)`. -/
def Wiring.connectSourceToPanner (w : Wiring) : Wiring :=
  { w with sourceToPanner := true }

/-- Effect of `this._source.connect(this._gainNode)`. -/
def Wiring.connectSourceToGain (w : Wiring) : Wiring :=
  { w with sourceToGain := true }

/-- Effect of `this._pannerNode.connect(this._gainNode)`. -/
def Wiring.connectPannerToGain (w : Wiring) : Wiring :=
  { w with pannerToGain := true }

/-- Effect of `this._gainNode.connect(window.context.destination)`. -/
def Wiring.connectGainToDest (w : Wiring) : Wiring :=
  { w with gainToDest := true }

/-- The spatial signal path is wired: source→panner→gain, and no direct
source→gain edge. -/
def Wiring.spatialPath (w : Wiring) : Prop :=
  w.sourceToPanner = true ∧ w.pannerToGain = true ∧ w.sourceToGain = false

/-- The mono (bypass) signal path is wired: source→gain directly, with the
panner out of the path. -/
def Wiring.monoPath (w : Wiring) : Prop :=
  w.sourceToGain = true ∧ w.sourceToPanner = false ∧ w.pannerToGain = false

/-- Exactly one of the two signal paths is wired (the two are mutually
exclusive since they disagree on the source→panner edge). -/
def Wiring.exactlyOnePath (w : Wiring) : Prop :=
  w.spatialPath ∨ w.monoPath

instance (w : Wiring) : Decidable w.spatialPath := by
  unfold Wiring.spatialPath; infer_instance

instance (w : Wiring) : Decidable w.monoPath := by
  unfold Wiring.monoPath; infer_instance

instance (w : Wiring) : Decidable w.exactlyOnePath := by
  unfold Wiring.exactlyOnePath; infer_instance

/-- The mutable state of `this._pannerNode` that the engine touches:
whether the browser exposes the `positionX`/`positionY` AudioParams
(modern API) or only the legacy `setPosition` method, the current
coordinates, and the ad-hoc `scale` attribute the code stores on the node. -/
structure PannerNode where
  hasPositionParams : Bool
  positionX : ℝ
  positionY : ℝ
  positionZ : ℝ
  scale : ℝ

/-- Effect of the legacy `panner.setPosition(x, y, z)` call: all three
coordinates are replaced at once. -/
def PannerNode.setPosition (p : PannerNode) (x y z : ℝ) : PannerNode :=
  { p with positionX := x, positionY := y, positionZ := z }

/-- A freshly created panner node (`window.context.createPanner()`), after
`setupSpatial` stored `scale = 1` on it; coordinates default to the origin.
`legacy` selects the browser variant without `positionX` AudioParams. -/
def freshPanner (legacy : Bool) : PannerNode :=
  { hasPositionParams := !legacy, positionX := 0, positionY := 0, positionZ := 0, scale := 1 }

/-- The state of one `AudioTrack` component's audio machinery:
its connection set, the component-local `this._spatialAudio` flag, the gain
node's value, the element's muted flag, the cached queue index and queue
length (`this._trackIdx` / `this._trackLen`), the panner node, and whether
`componentDidMount` ever created the source node (`this._source`). -/
structure GraphState where
  wiring : Wiring
  spatialLocal : Bool
  gainValue : JSNum
  muted : Bool
  trackIdx : ℕ
  trackLen : ℕ
  panner : PannerNode
  sourceCreated : Bool

/-- The body of the `try` block inside `getIndex`, walking
`window.audioTracks` (each element abstracted to the `id` of its
`firstChild`, or `none` when it has no first child).  A `none` element makes
`item.firstChild.id` throw a TypeError; an unsuccessful loop reaches the
`console.warn` line, which references the loop variable `item` outside its
scope and therefore throws a ReferenceError. -/
def getIndexTry (selfId : String) : List (Option String) → ℕ → Except JSError ℕ
  | [], _ => Except.error JSError.referenceError
  | none :: _, _ => Except.error JSError.typeError
  | some eid :: rest, i =>
      if eid = selfId then Except.ok i else getIndexTry selfId rest (i + 1)

/-- The `getIndex` method: when the collection has more than one element the
try block runs and every exception it raises is caught and converted to
index 0; otherwise 0 is returned outright. -/
def getIndex (selfId : String) (tracks : List (Option String)) : ℕ :=
  if 1 < tracks.length then
    match getIndexTry selfId tracks 0 with
    | Except.ok i => i
    | Except.error _ => 0
  else 0

/-- The ids actually present in the tracked audio-track collection
(ids of the first children that exist). -/
def trackIds : List (Option String) → List String
  | [] => []
  | none :: rest => trackIds rest
  | some eid :: rest => eid :: trackIds rest

/-- Exact decimal rounding to two digits, the idealization of
`Number.prototype.toFixed(2)` (ECMA-262 rounds the magnitude half up and
re-attaches the sign). -/
noncomputable def toFixed2 (x : ℝ) : ℝ :=
  if x < 0 then -(((round (100 * -x) : ℤ) : ℝ) / 100) else ((round (100 * x) : ℤ) : ℝ) / 100

/-- The `calcLocation` method: with `place = this._trackIdx + 1` and
`angle = 2 / (this._trackLen + 1)`, it computes `pos = place * angle - 1`
and returns `(sin (π·pos/2), cos (π·pos/2))`, each rounded through
`toFixed(2)`. -/
noncomputable def calcLocation (trackIdx trackLen : ℕ) : ℝ × ℝ :=
  (toFixed2 (Real.sin (Real.pi * ((((trackIdx : ℝ) + 1) * (2 / ((trackLen : ℝ) + 1)) - 1) / 2))),
   toFixed2 (Real.cos (Real.pi * ((((trackIdx : ℝ) + 1) * (2 / ((trackLen : ℝ) + 1)) - 1) / 2))))

/-- The `calcLocation` method as invoked on a component: it reads exactly the
`_trackIdx` and `_trackLen` fields of the component state. -/
noncomputable def calcLocationOf (g : GraphState) : ℝ × ℝ :=
  calcLocation g.trackIdx g.trackLen

/-- The panner-writing part of `updateSpatial`, applied to a computed
location pair.  With `positionX` AudioParams present, the two coordinates
are written separately; on the legacy path the code calls
`setPosition(xPos * scale, 0, 0)` and then `setPosition(yPos * scale, 0, 0)`,
the second call overwriting the first. -/
noncomputable def updateSpatialPanner (p : PannerNode) (xy : ℝ × ℝ) : PannerNode :=
  if p.hasPositionParams then
    { p with positionX := xy.1 * p.scale, positionY := xy.2 * p.scale }
  else
    (p.setPosition (xy.1 * p.scale) 0 0).setPosition (xy.2 * p.scale) 0 0

/-- The `updateSpatial` method: recomputes the location from the cached
index/length and writes the panner node.  It reads no spatialization flag:
the panner is written whether or not spatial mode is enabled. -/
noncomputable def updateSpatial (g : GraphState) : GraphState :=
  { g with panner := updateSpatialPanner g.panner (calcLocation g.trackIdx g.trackLen) }

/-- The `setupSpatial` method as far as the per-graph state is concerned:
the fresh nodes are connected source→panner→gain→destination
(unconditionally, whatever the global flag says) and the component-local
flag `this._spatialAudio` is initialized from `window.spatialAudio`. -/
def setupSpatial (spatialAudio : Bool) (g : GraphState) : GraphState :=
  { g with
      wiring := ((g.wiring.connectSourceToPanner).connectPannerToGain).connectGainToDest,
      spatialLocal := spatialAudio }

/-- The `switchCondition` method: `source.disconnect()` first, then, looking
at the (old) component-local flag, either tear the panner out of the path
and connect source→gain, or connect source→panner→gain. -/
def switchCondition (g : GraphState) : GraphState :=
  if g.spatialLocal then
    { g with wiring := ((g.wiring.disconnectSource).disconnectPanner).connectSourceToGain }
  else
    { g with wiring := ((g.wiring.disconnectSource).connectSourceToPanner).connectPannerToGain }

/-- The reaction of one live graph inside `shouldComponentUpdate` to the
global flag: if `window.spatialAudio` differs from `this._spatialAudio`,
run `switchCondition` and store the new flag value. -/
def modeSwitchPass (spatialAudio : Bool) (g : GraphState) : GraphState :=
  if spatialAudio ≠ g.spatialLocal then
    { switchCondition g with spatialLocal := spatialAudio }
  else g

/-- The volume branch of `shouldComponentUpdate`: the gain value is
rewritten only when the incoming `volume` prop is present (`typeof ===
'number'`), not NaN, and differs from the current gain value. -/
def volumePass (nextVolume : Option JSNum) (g : GraphState) : GraphState :=
  match nextVolume with
  | some (JSNum.num q) =>
      if g.gainValue ≠ JSNum.num q then { g with gainValue := JSNum.num q } else g
  | _ => g

/-- The position branch of `shouldComponentUpdate` (guarded by
`window.spatialAudio`): recompute index and length, and when either moved,
store them and run `updateSpatial`. -/
noncomputable def positionUpdatePass (spatialAudio : Bool) (tracks : List (Option String))
    (selfId : String) (g : GraphState) : GraphState :=
  if spatialAudio then
    if g.trackIdx ≠ getIndex selfId tracks ∨ g.trackLen ≠ tracks.length then
      updateSpatial { g with trackIdx := getIndex selfId tracks, trackLen := tracks.length }
    else g
  else g

/-- The graph-building part of `componentDidMount` for a component whose
`_ref` is present: the source node is created, index and length are read
from the collection, `setupSpatial` wires the chain and `updateSpatial`
positions the panner, then the initial `volume` prop (any number, NaN
included — the mount path has no NaN guard) and `muted` prop are applied. -/
noncomputable def componentDidMount (spatialAudio : Bool) (tracks : List (Option String))
    (selfId : String) (volume : Option JSNum) (muted? : Option Bool)
    (legacy : Bool) : GraphState :=
  let g0 : GraphState :=
    { wiring := freshWiring, spatialLocal := spatialAudio, gainValue := JSNum.num 1,
      muted := false, trackIdx := getIndex selfId tracks, trackLen := tracks.length,
      panner := freshPanner legacy, sourceCreated := true }
  let g1 := updateSpatial (setupSpatial spatialAudio g0)
  let g2 := match volume with
    | some v => { g1 with gainValue := v }
    | none => g1
  match muted? with
  | some b => { g2 with muted := b }
  | none => g2

/-- The state of a component that mounted without a usable audio element
(`this._ref` was null): no nodes were created, `this._source` is undefined. -/
def neverAttached : GraphState :=
  { wiring := freshWiring, spatialLocal := false, gainValue := JSNum.num 1, muted := false,
    trackIdx := 0, trackLen := 0, panner := freshPanner false, sourceCreated := false }

/-- The `componentWillUnmount` method: it unconditionally evaluates
`this._source.disconnect()`.  When the source node was never created this
dereferences `undefined` and throws a TypeError; otherwise all outgoing
edges of the source are removed (the panner and gain stay connected). -/
def componentWillUnmount (g : GraphState) : Except JSError GraphState :=
  if g.sourceCreated then Except.ok { g with wiring := g.wiring.disconnectSource }
  else Except.error JSError.typeError

/-- The `toggleSpatialAudio` action: flips the single global flag
`window.spatialAudio`. -/
def toggleSpatialAudio (spatialAudio : Bool) : Bool :=
  !spatialAudio

/-- A per-participant volume update at the conference level: each component
owns its private gain node, so the pass applies `volumePass` to the target
participant's graph only. -/
def applyVolumeUpdate (conf : String → GraphState) (target : String)
    (nextVolume : Option JSNum) : String → GraphState :=
  fun pid => if pid = target then volumePass nextVolume (conf pid) else conf pid

/-- The graph wiring a component's state claims to have according to its own
`this._spatialAudio` flag. -/
def flagConsistent (g : GraphState) : Prop :=
  match g.spatialLocal with
  | true => g.wiring.spatialPath
  | false => g.wiring.monoPath

/-- The component states reachable through the engine's lifecycle: a mount,
followed by any interleaving of mode-switch, volume and reposition passes. -/
inductive Reachable : GraphState → Prop where
  | mount (spatialAudio : Bool) (tracks : List (Option String)) (selfId : String)
      (volume : Option JSNum) (muted? : Option Bool) (legacy : Bool) :
      Reachable (componentDidMount spatialAudio tracks selfId volume muted? legacy)
  | modeSwitch (spatialAudio : Bool) (g : GraphState) :
      Reachable g → Reachable (modeSwitchPass spatialAudio g)
  | volume (nextVolume : Option JSNum) (g : GraphState) :
      Reachable g → Reachable (volumePass nextVolume g)
  | reposition (spatialAudio : Bool) (tracks : List (Option String)) (selfId : String)
      (g : GraphState) :
      Reachable g → Reachable (positionUpdatePass spatialAudio tracks selfId g)

/-! ### Helper lemmas about the discrete state machine -/

/-- A switch pass never touches the gain value. -/
theorem switchCondition_gainValue (g : GraphState) :
    (switchCondition g).gainValue = g.gainValue := by
  unfold switchCondition; split <;> rfl

/-- A switch pass never touches the muted flag. -/
theorem switchCondition_muted (g : GraphState) :
    (switchCondition g).muted = g.muted := by
  unfold switchCondition; split <;> rfl

/-- A mode-switch pass never touches the gain value. -/
theorem modeSwitchPass_gainValue (b : Bool) (g : GraphState) :
    (modeSwitchPass b g).gainValue = g.gainValue := by
  unfold modeSwitchPass; split
  · exact switchCondition_gainValue g
  · rfl

/-- A mode-switch pass never touches the muted flag. -/
theorem modeSwitchPass_muted (b : Bool) (g : GraphState) :
    (modeSwitchPass b g).muted = g.muted := by
  unfold modeSwitchPass; split
  · exact switchCondition_muted g
  · rfl

/-- After a mode-switch pass the component-local flag always equals the
global flag (either the pass stored it, or they were already equal). -/
theorem modeSwitchPass_spatialLocal (b : Bool) (g : GraphState) :
    (modeSwitchPass b g).spatialLocal = b := by
  unfold modeSwitchPass; split
  · rfl
  · rename_i h
    exact (not_ne_iff.mp h).symm

/-- A volume pass never touches the wiring. -/
theorem volumePass_wiring (v : Option JSNum) (g : GraphState) :
    (volumePass v g).wiring = g.wiring := by
  cases v with
  | none => rfl
  | some jn =>
      cases jn with
      | nan => rfl
      | num q =>
          show (if g.gainValue ≠ JSNum.num q then
              { g with gainValue := JSNum.num q } else g).wiring = g.wiring
          split <;> rfl

/-- A reposition pass never touches the wiring. -/
theorem positionUpdatePass_wiring (b : Bool) (tracks : List (Option String))
    (selfId : String) (g : GraphState) :
    (positionUpdatePass b tracks selfId g).wiring = g.wiring := by
  unfold positionUpdatePass
  split
  · split <;> rfl
  · rfl

/-- A fired switch pass wires exactly the path the old local flag deselects:
from a spatial-flagged component it produces the mono path, otherwise the
spatial path — whatever the previous wiring was. -/
theorem switchCondition_path (g : GraphState) :
    (if g.spatialLocal then (switchCondition g).wiring.monoPath
     else (switchCondition g).wiring.spatialPath) := by
  obtain ⟨⟨sp, sg, pg, gd⟩, l, gv, m, ti, tl, p, sc⟩ := g
  cases l <;> simp [switchCondition, Wiring.disconnectSource, Wiring.disconnectPanner,
    Wiring.connectSourceToGain, Wiring.connectSourceToPanner, Wiring.connectPannerToGain,
    Wiring.monoPath, Wiring.spatialPath]

/-- The try block of `getIndex` can only return `ok` for an id that occurs in
the collection: for an absent id it always ends in a caught exception. -/
theorem getIndexTry_no_hit (selfId : String) (tracks : List (Option String)) :
    ∀ (i j : ℕ), selfId ∉ trackIds tracks → getIndexTry selfId tracks i ≠ Except.ok j := by
  induction tracks with
  | nil => intro i j _; simp [getIndexTry]
  | cons hd rest ih =>
      intro i j h
      cases hd with
      | none => simp [getIndexTry]
      | some eid =>
          have h1 : ¬ eid = selfId := by
            intro he
            exact h (by simp [trackIds, he])
          have h2 : selfId ∉ trackIds rest := fun hm => h (by simp [trackIds, hm])
          simpa [getIndexTry, h1] using ih (i + 1) j h2

/-- For an id absent from the collection, `getIndex` returns 0: either the
collection is too short to scan, or the scan raises (TypeError on a missing
first child, or ReferenceError on the warn line) and the catch returns 0. -/
theorem getIndex_unknown (selfId : String) (tracks : List (Option String))
    (h : selfId ∉ trackIds tracks) : getIndex selfId tracks = 0 := by
  unfold getIndex
  split
  · cases he : getIndexTry selfId tracks 0 with
    | ok j => exact absurd he (getIndexTry_no_hit selfId tracks 0 j h)
    | error e => simp
  · rfl

/-- A concrete live graph whose cached queue position is stale (index 2 in a
queue of 3). -/
def gStale : GraphState :=
  { wiring := { sourceToPanner := true, sourceToGain := false,
                pannerToGain := true, gainToDest := true },
    spatialLocal := true, gainValue := JSNum.num 1, muted := false,
    trackIdx := 2, trackLen := 3, panner := freshPanner false, sourceCreated := true }

/-- C5 (amended): the index lookup never lets an exception escape — for a
participant id that is absent from the audio-track collection every lookup
failure inside the try block is caught and `getIndex` returns 0 — but the
resulting update is not a no-op: the graph is then treated as sitting at
index 0, so a reposition pass rewrites its cached index (see the
counterexample). -/
theorem C5_unknown_id_lookup (selfId : String) (tracks : List (Option String))
    (h : selfId ∉ trackIds tracks) :
    getIndex selfId tracks = 0 ∧ ∀ j, getIndexTry selfId tracks 0 ≠ Except.ok j :=
  ⟨getIndex_unknown selfId tracks h, fun j => getIndexTry_no_hit selfId tracks 0 j h⟩

/-- C5 witness: the amended theorem applied to the concrete collection
`[a, b, c]` and the absent id `z`. -/
theorem C5_unknown_id_lookup_witness :
    ("z" ∉ trackIds [some "a", some "b", some "c"])
  ∧ (getIndex "z" [some "a", some "b", some "c"] = 0
      ∧ ∀ j, getIndexTry "z" [some "a", some "b", some "c"] 0 ≠ Except.ok j) :=
  ⟨by decide, C5_unknown_id_lookup "z" [some "a", some "b", some "c"] (by decide)⟩

/-- C5 counterexample: a position update for an id that is not in the
collection is not a no-op — the graph at stale index 2 is rewritten to
index 0 (and repositioned) because the caught lookup failure yields 0. -/
theorem C5_counterexample :
    ("z" ∉ trackIds [some "a", some "b", some "c"])
  ∧ (positionUpdatePass true [some "a", some "b", some "c"] "z" gStale).trackIdx
      ≠ gStale.trackIdx := by
  exact ⟨by decide, by decide⟩

/-- C6 (amended): on a graph whose source node exists, `componentWillUnmount`
succeeds, removes exactly the source's outgoing edges and is idempotent — a
second call returns the same state and no error — but the panner→gain and
gain→destination edges and the gain value survive teardown (the end state is
not "no nodes connected"), and on a graph whose node construction never
completed the very first call throws a TypeError (see the counterexample). -/
theorem C6_detach_idempotent (g : GraphState) (h : g.sourceCreated = true) :
    componentWillUnmount g = Except.ok { g with wiring := g.wiring.disconnectSource }
  ∧ componentWillUnmount { g with wiring := g.wiring.disconnectSource }
      = Except.ok { g with wiring := g.wiring.disconnectSource }
  ∧ ({ g with wiring := g.wiring.disconnectSource } : GraphState).wiring.sourceToPanner = false
  ∧ ({ g with wiring := g.wiring.disconnectSource } : GraphState).wiring.sourceToGain = false
  ∧ ({ g with wiring := g.wiring.disconnectSource } : GraphState).wiring.pannerToGain
      = g.wiring.pannerToGain
  ∧ ({ g with wiring := g.wiring.disconnectSource } : GraphState).wiring.gainToDest
      = g.wiring.gainToDest
  ∧ ({ g with wiring := g.wiring.disconnectSource } : GraphState).gainValue = g.gainValue := by
  obtain ⟨w, l, gv, m, ti, tl, p, sc⟩ := g
  cases h
  exact ⟨rfl, rfl, rfl, rfl, rfl, rfl, rfl⟩

/-- C6 witness: the amended theorem applied to the concrete live graph
`gStale`. -/
theorem C6_detach_idempotent_witness :
    gStale.sourceCreated = true
  ∧ (componentWillUnmount gStale
        = Except.ok { gStale with wiring := gStale.wiring.disconnectSource }
      ∧ componentWillUnmount { gStale with wiring := gStale.wiring.disconnectSource }
          = Except.ok { gStale with wiring := gStale.wiring.disconnectSource }
      ∧ ({ gStale with wiring := gStale.wiring.disconnectSource } : GraphState).wiring.sourceToPanner = false
      ∧ ({ gStale with wiring := gStale.wiring.disconnectSource } : GraphState).wiring.sourceToGain = false
      ∧ ({ gStale with wiring := gStale.wiring.disconnectSource } : GraphState).wiring.pannerToGain
          = gStale.wiring.pannerToGain
      ∧ ({ gStale with wiring := gStale.wiring.disconnectSource } : GraphState).wiring.gainToDest
          = gStale.wiring.gainToDest
      ∧ ({ gStale with wiring := gStale.wiring.disconnectSource } : GraphState).gainValue
          = gStale.gainValue) :=
  ⟨rfl, C6_detach_idempotent gStale rfl⟩

/-- C6 counterexample: for a component whose node construction never
completed (`_ref` was null, so `this._source` is undefined), teardown throws
a TypeError instead of being a silent no-op; and even a successful teardown
leaves the panner→gain edge connected, contradicting the claimed
"no nodes connected" end state. -/
theorem C6_counterexample :
    componentWillUnmount neverAttached = Except.error JSError.typeError
  ∧ (componentWillUnmount gStale).map (fun g => g.wiring.pannerToGain) = Except.ok true :=
  ⟨rfl, rfl⟩

/-- C9: volume isolation — a volume update addressed to participant `A`
leaves every other participant's graph (in particular its gain value)
untouched, whatever the spatialization mode of either graph: each component
owns a private gain node and `volumePass` runs only on the target. -/
theorem C9_volume_isolation (conf : String → GraphState) (A B : String)
    (v : Option JSNum) (hAB : A ≠ B) :
    applyVolumeUpdate conf A v B = conf B
  ∧ (applyVolumeUpdate conf A v B).gainValue = (conf B).gainValue
  ∧ applyVolumeUpdate conf A v A = volumePass v (conf A) := by
  refine ⟨?_, ?_, ?_⟩
  · unfold applyVolumeUpdate
    rw [if_neg (Ne.symm hAB)]
  · unfold applyVolumeUpdate
    rw [if_neg (Ne.symm hAB)]
  · unfold applyVolumeUpdate
    rw [if_pos rfl]

/-- C9 witness: the isolation theorem applied to a concrete two-participant
conference. -/
theorem C9_volume_isolation_witness :
    ("a" : String) ≠ "b"
  ∧ (applyVolumeUpdate (fun _ => gStale) "a" (some (JSNum.num (1/2))) "b"
        = (fun _ => gStale) "b"
      ∧ (applyVolumeUpdate (fun _ => gStale) "a" (some (JSNum.num (1/2))) "b").gainValue
          = ((fun _ => gStale) "b").gainValue
      ∧ applyVolumeUpdate (fun _ => gStale) "a" (some (JSNum.num (1/2))) "a"
          = volumePass (some (JSNum.num (1/2))) ((fun _ => gStale) "a")) :=
  ⟨by decide, C9_volume_isolation (fun _ => gStale) "a" "b" (some (JSNum.num (1/2))) (by decide)⟩

/-- C10: the volume branch of `shouldComponentUpdate` leaves the whole graph
(and in particular the gain value) untouched when the incoming volume prop
is absent, NaN, or equal to the current gain value; a numeric prop always
leaves the gain at exactly that value, touching nothing else — so the gain
is mutated only by a distinct, numeric, non-NaN volume. -/
theorem C10_volume_update_guard (g : GraphState) (q : ℚ) :
    volumePass none g = g
  ∧ volumePass (some JSNum.nan) g = g
  ∧ volumePass (some g.gainValue) g = g
  ∧ (volumePass (some (JSNum.num q)) g).gainValue = JSNum.num q
  ∧ (volumePass (some (JSNum.num q)) g).muted = g.muted
  ∧ (volumePass (some (JSNum.num q)) g).wiring = g.wiring := by
  refine ⟨rfl, rfl, ?_, ?_, ?_, volumePass_wiring _ g⟩
  · obtain ⟨w, l, gv, m, ti, tl, p, sc⟩ := g
    cases gv with
    | nan => rfl
    | num r =>
        show (if JSNum.num r ≠ JSNum.num r then _ else _) = _
        rw [if_neg (by simp)]
  · show (if g.gainValue ≠ JSNum.num q then
        { g with gainValue := JSNum.num q } else g).gainValue = JSNum.num q
    split
    · rfl
    · rename_i h
      exact not_ne_iff.mp h
  · show (if g.gainValue ≠ JSNum.num q then
        { g with gainValue := JSNum.num q } else g).muted = g.muted
    split <;> rfl

/-- Decidability of the flag/wiring consistency predicate. -/
instance (g : GraphState) : Decidable (flagConsistent g) := by
  unfold flagConsistent
  cases hsl : g.spatialLocal <;> infer_instance

/-- A fired or unfired switch leaves exactly one path wired, whatever came
before: the source is fully disconnected first, then exactly one chain is
rebuilt. -/
theorem switchCondition_exactlyOne (g : GraphState) :
    (switchCondition g).wiring.exactlyOnePath := by
  have h := switchCondition_path g
  cases hl : g.spatialLocal with
  | false =>
      rw [hl] at h
      exact Or.inl (by simpa using h)
  | true =>
      rw [hl] at h
      exact Or.inr (by simpa using h)

/-- Mount wires the fresh nodes source→panner→gain→destination, regardless
of props and of the global flag. -/
theorem componentDidMount_wiring (sa : Bool) (tracks : List (Option String))
    (selfId : String) (vol : Option JSNum) (mutp : Option Bool) (legacy : Bool) :
    (componentDidMount sa tracks selfId vol mutp legacy).wiring
      = { sourceToPanner := true, sourceToGain := false,
          pannerToGain := true, gainToDest := true } := by
  unfold componentDidMount
  cases mutp <;> cases vol <;> rfl

/-- In every state reachable through the lifecycle, exactly one of the two
signal paths is wired — never both, never neither. -/
theorem reachable_exactlyOnePath (g : GraphState) (h : Reachable g) :
    g.wiring.exactlyOnePath := by
  induction h with
  | mount sa tracks selfId vol mutp legacy =>
      rw [componentDidMount_wiring]
      exact Or.inl ⟨rfl, rfl, rfl⟩
  | modeSwitch sa g hr ih =>
      unfold modeSwitchPass
      split
      · exact switchCondition_exactlyOne g
      · exact ih
  | volume v g hr ih =>
      rw [volumePass_wiring]
      exact ih
  | reposition sa tracks selfId g hr ih =>
      rw [positionUpdatePass_wiring]
      exact ih

/-- C2 (amended): after attachment a graph is wired source→panner→gain
regardless of the global flag (construction does not consult it for the
wiring); in every reachable state exactly one of the two signal paths is
wired, never both; and every mode-switch pass leaves the component-local
flag equal to the global flag, a fired pass wiring exactly the path the new
flag selects.  The original claim fails only at construction under a false
flag (see the counterexample). -/
theorem C2_exactly_one_path (b : Bool) (tracks : List (Option String)) (selfId : String)
    (vol : Option JSNum) (mutp : Option Bool) (legacy : Bool)
    (g : GraphState) (hg : Reachable g)
    (spatialAudio : Bool) (h : GraphState) (hflip : spatialAudio ≠ h.spatialLocal) :
    Wiring.spatialPath (componentDidMount b tracks selfId vol mutp legacy).wiring
  ∧ Wiring.exactlyOnePath g.wiring
  ∧ (modeSwitchPass spatialAudio h).spatialLocal = spatialAudio
  ∧ (if spatialAudio then Wiring.spatialPath (modeSwitchPass spatialAudio h).wiring
     else Wiring.monoPath (modeSwitchPass spatialAudio h).wiring) := by
  refine ⟨?_, reachable_exactlyOnePath g hg, modeSwitchPass_spatialLocal _ _, ?_⟩
  · rw [componentDidMount_wiring]
    exact ⟨rfl, rfl, rfl⟩
  · unfold modeSwitchPass
    rw [if_pos hflip]
    have hp := switchCondition_path h
    cases hsl : h.spatialLocal with
    | false =>
        rw [hsl] at hp
        have hp' : Wiring.spatialPath (switchCondition h).wiring := by simpa using hp
        have hsa : spatialAudio = true := by
          rw [hsl] at hflip
          simpa using hflip
        rw [hsa, if_pos rfl]
        exact hp'
    | true =>
        rw [hsl] at hp
        have hp' : Wiring.monoPath (switchCondition h).wiring := by simpa using hp
        have hsa : spatialAudio = false := by
          rw [hsl] at hflip
          simpa using hflip
        rw [hsa, if_neg (by simp)]
        exact hp'

/-- C2 witness: the amended theorem applied to a graph mounted under a false
flag, then hit by a mode switch to true. -/
theorem C2_exactly_one_path_witness :
    (true ≠ (componentDidMount false [] "p1" none none false).spatialLocal)
  ∧ (Wiring.spatialPath (componentDidMount false [] "p1" none none false).wiring
     ∧ Wiring.exactlyOnePath (componentDidMount false [] "p1" none none false).wiring
     ∧ (modeSwitchPass true (componentDidMount false [] "p1" none none false)).spatialLocal = true
     ∧ (if true then
          Wiring.spatialPath (modeSwitchPass true (componentDidMount false [] "p1" none none false)).wiring
        else
          Wiring.monoPath (modeSwitchPass true (componentDidMount false [] "p1" none none false)).wiring)) :=
  ⟨by decide,
   C2_exactly_one_path false [] "p1" none none false
     (componentDidMount false [] "p1" none none false)
     (Reachable.mount false [] "p1" none none false)
     true (componentDidMount false [] "p1" none none false) (by decide)⟩

/-- C2 counterexample: a graph constructed while the global flag is false is
not wired source→gain — the panner is in its signal path — so the wiring is
not determined by the flag at that moment. -/
theorem C2_counterexample :
    (componentDidMount false [] "p1" none none false).spatialLocal = false
  ∧ ¬ Wiring.monoPath (componentDidMount false [] "p1" none none false).wiring
  ∧ (componentDidMount false [] "p1" none none false).wiring.sourceToPanner = true := by
  decide

/-- C3 (amended): from any state whose wiring agrees with its own flag (as
holds after every fired switch pass, though not right after construction
under a false flag — see the counterexample), a double toggle restores the
connection set exactly; and no mode-switch pass ever changes the gain value
or the muted flag. -/
theorem C3_toggle_roundtrip (g : GraphState) (G : Bool)
    (hsync : g.spatialLocal = G) (hcons : flagConsistent g)
    (b : Bool) (h : GraphState) :
    (modeSwitchPass (toggleSpatialAudio (toggleSpatialAudio G))
        (modeSwitchPass (toggleSpatialAudio G) g)).wiring = g.wiring
  ∧ (modeSwitchPass b h).gainValue = h.gainValue
  ∧ (modeSwitchPass b h).muted = h.muted := by
  refine ⟨?_, modeSwitchPass_gainValue b h, modeSwitchPass_muted b h⟩
  subst hsync
  obtain ⟨⟨sp, sg, pg, gd⟩, l, gv, m, ti, tl, p, sc⟩ := g
  cases l with
  | false =>
      obtain ⟨h1, h2, h3⟩ := hcons
      simp only at h1 h2 h3
      subst h1; subst h2; subst h3
      rfl
  | true =>
      obtain ⟨h1, h2, h3⟩ := hcons
      simp only at h1 h2 h3
      subst h1; subst h2; subst h3
      rfl

/-- C3 witness: the round-trip theorem applied to the consistent spatial
graph `gStale`. -/
theorem C3_toggle_roundtrip_witness :
    gStale.spatialLocal = true
  ∧ flagConsistent gStale
  ∧ ((modeSwitchPass (toggleSpatialAudio (toggleSpatialAudio true))
        (modeSwitchPass (toggleSpatialAudio true) gStale)).wiring = gStale.wiring
     ∧ (modeSwitchPass false gStale).gainValue = gStale.gainValue
     ∧ (modeSwitchPass false gStale).muted = gStale.muted) :=
  ⟨rfl, by decide, C3_toggle_roundtrip gStale true rfl (by decide) false gStale⟩

/-- C3 counterexample: a graph freshly constructed under a false flag (its
wiring is spatial although its flag is mono) is left mono-wired by a double
toggle — the connection set is not restored. -/
theorem C3_counterexample :
    (modeSwitchPass (toggleSpatialAudio (toggleSpatialAudio false))
        (modeSwitchPass (toggleSpatialAudio false)
          (componentDidMount false [] "p1" none none false))).wiring
      ≠ (componentDidMount false [] "p1" none none false).wiring := by
  decide

/-! ### Arithmetic of the azimuth computation -/

/-- Rounding zero through toFixed(2) gives zero. -/
theorem toFixed2_zero : toFixed2 0 = 0 := by
  unfold toFixed2
  rw [if_neg (lt_irrefl 0), mul_zero, round_zero]
  norm_num

/-- Rounding one through toFixed(2) gives one. -/
theorem toFixed2_one : toFixed2 1 = 1 := by
  unfold toFixed2
  rw [if_neg (by norm_num : ¬ (1:ℝ) < 0), mul_one,
    show ((100:ℝ)) = ((100:ℕ):ℝ) from by norm_num, round_natCast]
  norm_num

/-- toFixed(2) rounding is an odd function: ECMA-262 rounds the magnitude
and re-attaches the sign, so negating the input negates the output. -/
theorem toFixed2_neg (x : ℝ) : toFixed2 (-x) = -toFixed2 x := by
  unfold toFixed2
  rcases lt_trichotomy x 0 with hx | hx | hx
  · rw [if_neg (by linarith : ¬ -x < 0), if_pos hx, neg_neg]
  · rw [hx]
    norm_num
  · rw [if_pos (by linarith : -x < 0), if_neg (by linarith : ¬ x < 0), neg_neg]

/-- Cast arithmetic for the 1-based place of a 0-based track index. -/
theorem cast_pred_add_one (place : ℕ) (h : 1 ≤ place) :
    ((place - 1 : ℕ) : ℝ) + 1 = place := by
  rw [Nat.cast_sub h]
  push_cast
  ring

/-- C8: the azimuth computation is deterministic and reads nothing but the
cached track index and track count — two component states agreeing on those
two fields yield identical location pairs, whatever their wiring, flags,
gain, mute or panner state. -/
theorem C8_calcLocation_deterministic (g1 g2 : GraphState)
    (hidx : g1.trackIdx = g2.trackIdx) (hlen : g1.trackLen = g2.trackLen) :
    calcLocationOf g1 = calcLocationOf g2 := by
  unfold calcLocationOf
  rw [hidx, hlen]

/-- A second concrete component state: same queue position as `gStale` but
different wiring, flags, gain, mute and panner. -/
def gAlt : GraphState :=
  { wiring := freshWiring, spatialLocal := false, gainValue := JSNum.num 0, muted := true,
    trackIdx := 2, trackLen := 3, panner := freshPanner true, sourceCreated := false }

/-- C8 witness: two states differing in every field except index and length
produce the same location. -/
theorem C8_calcLocation_deterministic_witness :
    gStale.trackIdx = gAlt.trackIdx ∧ gStale.trackLen = gAlt.trackLen
  ∧ calcLocationOf gStale = calcLocationOf gAlt :=
  ⟨rfl, rfl, C8_calcLocation_deterministic gStale gAlt rfl rfl⟩

/-- C4 (amended): with `positionX`/`positionY` AudioParams present, a
position update writes exactly `(x·scale, y·scale)`; on the legacy fallback
the two successive `setPosition` calls overwrite each other, leaving the
panner at `(y·scale, 0, 0)`; and `updateSpatial` consults no spatialization
flag — the panner is written identically whether the mode is enabled or
disabled (there is no disabled-mode no-op). -/
theorem C4_position_update (x y px py pz s : ℝ) (g : GraphState) :
    updateSpatialPanner
        { hasPositionParams := true, positionX := px, positionY := py,
          positionZ := pz, scale := s } (x, y)
      = { hasPositionParams := true, positionX := x * s, positionY := y * s,
          positionZ := pz, scale := s }
  ∧ updateSpatialPanner
        { hasPositionParams := false, positionX := px, positionY := py,
          positionZ := pz, scale := s } (x, y)
      = { hasPositionParams := false, positionX := y * s, positionY := 0,
          positionZ := 0, scale := s }
  ∧ (updateSpatial { g with spatialLocal := false }).panner
      = (updateSpatial { g with spatialLocal := true }).panner :=
  ⟨rfl, rfl, rfl⟩

/-- C4 counterexample: on the legacy `setPosition` path the panner does not
end at `(x·scale, y·scale)` — with scale 1 and computed position
`(1/2, 1/3)` it ends at `(1/3, 0, 0)`. -/
theorem C4_counterexample :
    ¬ ((updateSpatialPanner
          { hasPositionParams := false, positionX := 0, positionY := 0,
            positionZ := 0, scale := 1 } ((1:ℝ)/2, (1:ℝ)/3)).positionX = (1/2 : ℝ) * 1
      ∧ (updateSpatialPanner
          { hasPositionParams := false, positionX := 0, positionY := 0,
            positionZ := 0, scale := 1 } ((1:ℝ)/2, (1:ℝ)/3)).positionY = (1/3 : ℝ) * 1) := by
  intro hcl
  have h1 : ((1:ℝ)/3) * 1 = (1/2 : ℝ) * 1 := hcl.1
  norm_num at h1

/-- Lower bound for the square root of three. -/
theorem sqrt3_lb : (1.73 : ℝ) ≤ Real.sqrt 3 :=
  (Real.le_sqrt (by norm_num) (by norm_num)).mpr (by norm_num)

/-- Upper bound for the square root of three. -/
theorem sqrt3_ub : Real.sqrt 3 < 1.75 :=
  (Real.sqrt_lt' (by norm_num)).mpr (by norm_num)

/-- The y-coordinate computed for the first of two tracks is exactly 0.87,
the toFixed(2) rounding of cos(π/6) = √3/2. -/
theorem calcLocation_0_2_snd : (calcLocation 0 2).2 = 87 / 100 := by
  show toFixed2 (Real.cos (Real.pi *
      (((((0:ℕ):ℝ) + 1) * (2 / (((2:ℕ):ℝ) + 1)) - 1) / 2))) = 87 / 100
  rw [show Real.pi * (((((0:ℕ):ℝ) + 1) * (2 / (((2:ℕ):ℝ) + 1)) - 1) / 2)
        = -(Real.pi / 6) from by push_cast; ring,
    Real.cos_neg, Real.cos_pi_div_six]
  unfold toFixed2
  rw [if_neg (not_lt.mpr (by positivity))]
  have hround : round ((100:ℝ) * (Real.sqrt 3 / 2)) = 87 := by
    have h1 := sqrt3_lb
    have h2 := sqrt3_ub
    rw [round_eq, Int.floor_eq_iff]
    constructor
    · push_cast
      nlinarith
    · push_cast
      nlinarith
  rw [hround]
  norm_num

/-- C1 counterexample: at two participants, place 1, the code does not
return the exact pair (sin(π·pos/2), cos(π·pos/2)): the y-coordinate comes
out as 0.87, the toFixed(2) rounding of cos(π/6) = √3/2, which is
irrational and therefore differs from 0.87. -/
theorem C1_counterexample :
    calcLocation 0 2
      ≠ (Real.sin (Real.pi * (((1:ℝ) * (2 / ((2:ℝ) + 1)) - 1) / 2)),
         Real.cos (Real.pi * (((1:ℝ) * (2 / ((2:ℝ) + 1)) - 1) / 2))) := by
  intro hq
  have hcos : Real.cos (Real.pi * (((1:ℝ) * (2 / ((2:ℝ) + 1)) - 1) / 2))
      = Real.sqrt 3 / 2 := by
    rw [show Real.pi * (((1:ℝ) * (2 / ((2:ℝ) + 1)) - 1) / 2) = -(Real.pi / 6) from by ring,
      Real.cos_neg, Real.cos_pi_div_six]
  have hy2 : (87 : ℝ)/100 = Real.sqrt 3 / 2 := by
    rw [← calcLocation_0_2_snd, ← hcos]
    exact congrArg Prod.snd hq
  have h3 : Real.sqrt 3 ^ 2 = 3 := Real.sq_sqrt (by norm_num)
  have h4 : Real.sqrt 3 = 87 / 50 := by linarith
  rw [h4] at h3
  norm_num at h3

/-- C1 (amended): for any participant count and 1-based place, the azimuth
computation returns the spec's pair (sin(π·pos/2), cos(π·pos/2)) — with
`angle = 2/(N+1)` and `pos = place·angle − 1` — but each coordinate rounded
through toFixed(2); in particular for N = 1, place = 1 the rounded pair is
exactly (0, 1). -/
theorem C1_calcLocation_rounded (N place : ℕ) (h1 : 1 ≤ place) (h2 : place ≤ N) :
    calcLocation (place - 1) N
      = (toFixed2 (Real.sin (Real.pi * (((place : ℝ) * (2 / ((N : ℝ) + 1)) - 1) / 2))),
         toFixed2 (Real.cos (Real.pi * (((place : ℝ) * (2 / ((N : ℝ) + 1)) - 1) / 2))))
  ∧ calcLocation 0 1 = ((0 : ℝ), (1 : ℝ)) := by
  constructor
  · unfold calcLocation
    rw [cast_pred_add_one place h1]
  · unfold calcLocation
    rw [show Real.pi * (((((0:ℕ):ℝ) + 1) * (2 / (((1:ℕ):ℝ) + 1)) - 1) / 2) = 0 from by
      push_cast; ring]
    rw [Real.sin_zero, Real.cos_zero, toFixed2_zero, toFixed2_one]

/-- C1 witness: the amended theorem at one participant, place 1. -/
theorem C1_calcLocation_rounded_witness :
    ((1:ℕ) ≤ 1 ∧ (1:ℕ) ≤ 1)
  ∧ (calcLocation (1 - 1) 1
      = (toFixed2 (Real.sin (Real.pi * ((((1:ℕ) : ℝ) * (2 / (((1:ℕ) : ℝ) + 1)) - 1) / 2))),
         toFixed2 (Real.cos (Real.pi * ((((1:ℕ) : ℝ) * (2 / (((1:ℕ) : ℝ) + 1)) - 1) / 2))))
     ∧ calcLocation 0 1 = ((0:ℝ), (1:ℝ))) :=
  ⟨⟨le_refl 1, le_refl 1⟩, C1_calcLocation_rounded 1 1 (le_refl 1) (le_refl 1)⟩

/-- Mirror symmetry of the pan positions: the k-th and (N+1−k)-th places
produce opposite `pos` values. -/
theorem calcLocation_arg_symm (N k : ℕ) (h1 : 1 ≤ k) (h2 : k ≤ N) :
    ((((N - k : ℕ) : ℝ) + 1) * (2 / ((N : ℝ) + 1)) - 1) / 2
      = -(((((k - 1 : ℕ) : ℝ) + 1) * (2 / ((N : ℝ) + 1)) - 1) / 2) := by
  rw [cast_pred_add_one k h1, Nat.cast_sub h2]
  have hne : (N : ℝ) + 1 ≠ 0 := by positivity
  field_simp
  ring

/-- C7: for N in {2,3,4,5} participants, the k-th and (N+1−k)-th computed
positions mirror each other — opposite-sign x of equal magnitude, equal y —
because the pos values are opposite, sine is odd, cosine is even, and the
toFixed(2) rounding is odd; hence the multiset of x-positions is symmetric
about 0. -/
theorem C7_symmetric_positions (N k : ℕ) (hN : N = 2 ∨ N = 3 ∨ N = 4 ∨ N = 5)
    (h1 : 1 ≤ k) (h2 : k ≤ N) :
    (calcLocation (k - 1) N).1 = -((calcLocation (N - k) N).1)
  ∧ (calcLocation (k - 1) N).2 = (calcLocation (N - k) N).2 := by
  have e := calcLocation_arg_symm N k h1 h2
  constructor
  · show toFixed2 (Real.sin (Real.pi *
        (((((k - 1 : ℕ):ℝ) + 1) * (2 / ((N:ℝ) + 1)) - 1) / 2)))
      = -(toFixed2 (Real.sin (Real.pi *
        (((((N - k : ℕ):ℝ) + 1) * (2 / ((N:ℝ) + 1)) - 1) / 2))))
    rw [e, mul_neg, Real.sin_neg, toFixed2_neg, neg_neg]
  · show toFixed2 (Real.cos (Real.pi *
        (((((k - 1 : ℕ):ℝ) + 1) * (2 / ((N:ℝ) + 1)) - 1) / 2)))
      = toFixed2 (Real.cos (Real.pi *
        (((((N - k : ℕ):ℝ) + 1) * (2 / ((N:ℝ) + 1)) - 1) / 2)))
    rw [e, mul_neg, Real.cos_neg]

/-- C7 witness: the symmetry theorem at N = 2, k = 1. -/
theorem C7_symmetric_positions_witness :
    ((2:ℕ) = 2 ∨ (2:ℕ) = 3 ∨ (2:ℕ) = 4 ∨ (2:ℕ) = 5) ∧ (1:ℕ) ≤ 1 ∧ (1:ℕ) ≤ 2
  ∧ ((calcLocation (1 - 1) 2).1 = -((calcLocation (2 - 1) 2).1)
     ∧ (calcLocation (1 - 1) 2).2 = (calcLocation (2 - 1) 2).2) :=
  ⟨Or.inl rfl, by decide, by decide,
   C7_symmetric_positions 2 1 (Or.inl rfl) (by decide) (by decide)⟩

end MeetInSpace
